import Mathlib

/-!
Shallow embedding of the message-routing and response-formatting pipeline of
the repository (src/src/xmtpService.ts and src/src/messageStore.ts).

JavaScript runtime values are modelled by `JValue`; JavaScript semantics that
the pipeline relies on (truthiness, `||`, property access that throws on
`null`/`undefined`, template-literal stringification, `Array.prototype.join`)
are modelled by the `js*` functions below.  Code that can throw a TypeError
runs in `Except Unit`; the formatters catch with `try/catch`, which the
embedding renders as a `match` on the `Except` result.

External collaborators (the generative-AI completion service, the HTTPS
transport, `JSON.parse`) are parameters: the AI call is an `AIOutcome`
(either the text it returned or the fact that it threw), the transport is a
function from the resolved URL to a `TransportEvent`, and `JSON.parse` is a
function `String → Option JValue` (`none` = parse exception).
-/

/-- JavaScript `String.prototype.trim()` (structural model over the
character list; the messages here contain only ASCII whitespace). -/
def jsTrim (s : String) : String :=
  String.mk (((s.data.dropWhile Char.isWhitespace).reverse.dropWhile Char.isWhitespace).reverse)

/-- JavaScript `String.prototype.toLowerCase()` (ASCII case folding). -/
def jsToLower (s : String) : String :=
  String.mk (s.data.map Char.toLower)

/-- JavaScript `s.substring(0, n)` on the character list. -/
def jsTake (s : String) (n : Nat) : String :=
  String.mk (s.data.take n)

/-- Does the string start with the character `c`? -/
def jsStartsWithChar (s : String) (c : Char) : Bool :=
  match s.data with
  | [] => false
  | a :: _ => a == c

/-- JavaScript `s.substring(1)`. -/
def jsDropOne (s : String) : String :=
  String.mk (s.data.drop 1)

/-- Splitter for JavaScript `s.split(sep)` with a one-character separator
(the source splits on a single space). `""` splits to `[""]`, and adjacent
separators produce empty fields, exactly as in JavaScript. -/
def jsSplitCharAux (c : Char) : List Char → List Char → List String
  | [], acc => [String.mk acc.reverse]
  | x :: xs, acc =>
    if x == c then String.mk acc.reverse :: jsSplitCharAux c xs []
    else jsSplitCharAux c xs (x :: acc)

/-- JavaScript `s.split(c)` for a one-character separator. -/
def jsSplitChar (s : String) (c : Char) : List String :=
  jsSplitCharAux c s.data []

/-- Core of `String.prototype.replace(pat, r)`: replace only the FIRST
occurrence of `pat`, with no rescanning of the replacement. -/
def replaceFirstAux (pat r : List Char) : List Char → List Char
  | [] => []
  | x :: xs =>
    if pat.isPrefixOf (x :: xs) then r ++ (x :: xs).drop pat.length
    else x :: replaceFirstAux pat r xs

/-- JavaScript `s.replace(pat, r)` with string arguments: first occurrence
only. -/
def replaceFirst (s pat r : String) : String :=
  String.mk (replaceFirstAux pat.data r.data s.data)

/-- Model of a JavaScript runtime value (JSON values plus `undefined`).
Numbers are modelled as integers; no claim here depends on non-integral or
NaN number behaviour. -/
inductive JValue : Type where
  | null : JValue
  | undefined : JValue
  | bool (b : Bool) : JValue
  | num (n : Int) : JValue
  | str (s : String) : JValue
  | arr (xs : List JValue) : JValue
  | obj (fields : List (String × JValue)) : JValue

/-- JavaScript truthiness: `null`, `undefined`, `false`, `0` and `""` are
falsy; every array and object (even empty) is truthy. -/
def jsTruthy : JValue → Bool
  | .null => false
  | .undefined => false
  | .bool b => b
  | .num n => n != 0
  | .str s => s != ""
  | .arr _ => true
  | .obj _ => true

/-- JavaScript `a || b`. -/
def jsOr (a b : JValue) : JValue :=
  if jsTruthy a then a else b

/-- `Array.isArray`. -/
def jsIsArray : JValue → Bool
  | .arr _ => true
  | _ => false

/-- First value bound to key `k` in an object's field list. -/
def lookupField (fields : List (String × JValue)) (k : String) : Option JValue :=
  (fields.find? (fun p => p.1 == k)).map (fun p => p.2)

/-- JavaScript property read `v.k`: throws a TypeError on `null`/`undefined`,
returns the field (or `undefined`) on objects, models `.length` on strings
and arrays, and yields `undefined` on every other primitive. -/
def getField : JValue → String → Except Unit JValue
  | .null, _ => .error ()
  | .undefined, _ => .error ()
  | .obj fs, k => .ok ((lookupField fs k).getD .undefined)
  | .str s, k => if k == "length" then .ok (.num s.length) else .ok .undefined
  | .arr xs, k => if k == "length" then .ok (.num xs.length) else .ok .undefined
  | _, _ => .ok .undefined

mutual

/-- JavaScript template-literal stringification `String(v)`:
arrays print as their elements joined with `","`. -/
def jsToString : JValue → String
  | .null => "null"
  | .undefined => "undefined"
  | .bool b => if b then "true" else "false"
  | .num n => toString n
  | .str s => s
  | .arr xs => jsToStringElems xs
  | .obj _ => "[object Object]"

/-- Elements of an array joined with `","`; inside `Array.prototype.join`,
`null` and `undefined` elements print as the empty string. -/
def jsToStringElems : List JValue → String
  | [] => ""
  | [v] => jsElemToString v
  | v :: rest => jsElemToString v ++ "," ++ jsToStringElems rest

/-- A single element as printed by `Array.prototype.join`. -/
def jsElemToString : JValue → String
  | .null => ""
  | .undefined => ""
  | .bool b => if b then "true" else "false"
  | .num n => toString n
  | .str s => s
  | .arr xs => jsToStringElems xs
  | .obj _ => "[object Object]"

end

/-- `Array.prototype.join(sep)` on a list of elements. -/
def jsJoinElems (sep : String) : List JValue → String
  | [] => ""
  | [v] => jsElemToString v
  | v :: rest => jsElemToString v ++ sep ++ jsJoinElems sep rest

/-- JavaScript `v.join(sep)`: a TypeError unless `v` is an array. -/
def jsJoin (v : JValue) (sep : String) : Except Unit JValue :=
  match v with
  | .arr xs => .ok (.str (jsJoinElems sep xs))
  | _ => .error ()

/-- JavaScript `v.substring(0, n)` as used by the tweet formatter:
a TypeError unless `v` is a string. -/
def jsSubstringTo (v : JValue) (n : Nat) : Except Unit JValue :=
  match v with
  | .str s => .ok (.str (jsTake s n))
  | _ => .error ()

/-- JavaScript `v > n` for a numeric literal `n`: true only when `v` is a
number greater than `n` (comparisons against `undefined` are false). -/
def jsGtNat (v : JValue) (n : Nat) : Bool :=
  match v with
  | .num m => (n : Int) < m
  | _ => false

/-- JavaScript `v === 0`. -/
def jsIsZero (v : JValue) : Bool :=
  match v with
  | .num m => m == 0
  | _ => false

/-- `forEach` iterates arrays only; on any other value it is a TypeError. -/
def jsAsArray (v : JValue) : Except Unit (List JValue) :=
  match v with
  | .arr xs => .ok xs
  | _ => .error ()

/-! ## The three dedicated response formatters (xmtpService.ts) -/

/-- Body of the `try` block of `formatEndpoint1Response`. -/
def formatEndpoint1Core (data : JValue) : Except Unit String := do
  let result ← getField data "result"
  let name := jsToString (jsOr (← getField result "name") (.str "N/A"))
  let authorHandle := jsToString (jsOr (← getField result "author_handle") (.str "N/A"))
  let bio := jsToString (jsOr (← getField result "bio") (.str "N/A"))
  let profileImageUrl := jsToString (jsOr (← getField result "profile_image_url") (.str "N/A"))
  let followersCount := jsToString (jsOr (← getField result "followers_count") (.str "N/A"))
  let tagsVal ← getField result "tags"
  let tags ← if jsIsArray tagsVal then do
      let j ← jsJoin tagsVal ", "
      pure (jsToString j)
    else
      pure (jsToString (jsOr tagsVal (.str "N/A")))
  return "👤 Name: " ++ name ++
    "\n🏷️ Handle: " ++ authorHandle ++
    "\n📝 Bio: " ++ bio ++
    "\n🖼️ Profile Image: " ++ profileImageUrl ++
    "\n👥 Followers: " ++ followersCount ++
    "\n🏷️ Tags: " ++ tags

/-- `formatEndpoint1Response` (profile details): the `try/catch` wrapper. -/
def formatEndpoint1Response (data : JValue) : String :=
  match formatEndpoint1Core data with
  | .ok s => s
  | .error _ => "Error formatting profile data"

/-- One numbered block of `formatEndpoint3Response`'s `forEach`. -/
def formatFollowerBlock (idx : Nat) (follower : JValue) : Except Unit String := do
  let profileName := jsToString (jsOr (← getField follower "profile_name") (.str "N/A"))
  let handle := jsToString (jsOr (← getField follower "handle") (.str "N/A"))
  let profileImageUrl := jsToString (jsOr (← getField follower "profile_image_url") (.str "N/A"))
  let tagsVal ← getField follower "tags"
  let tags ← if jsIsArray tagsVal then do
      let j ← jsJoin tagsVal ", "
      pure (jsToString j)
    else
      pure (jsToString (jsOr tagsVal (.str "N/A")))
  let followersCount := jsToString (jsOr (← getField follower "followers_count") (.str "N/A"))
  let smartFollowers := jsToString (jsOr (← getField follower "smart_followers") (.str "N/A"))
  return toString (idx + 1) ++ ". 👤 " ++ profileName ++
    "\n   🏷️ @" ++ handle ++
    "\n   🖼️ " ++ profileImageUrl ++
    "\n   🏷️ " ++ tags ++
    "\n   👥 " ++ followersCount ++ " followers" ++
    "\n   ⭐ " ++ smartFollowers ++ " smart followers\n\n"

/-- The `forEach` accumulation over the followers list. -/
def followerBlocks (idx : Nat) : List JValue → Except Unit String
  | [] => .ok ""
  | f :: rest => do
    let b ← formatFollowerBlock idx f
    let r ← followerBlocks (idx + 1) rest
    return b ++ r

/-- Body of the `try` block of `formatEndpoint3Response`. -/
def formatEndpoint3Core (data : JValue) : Except Unit String := do
  let result ← getField data "result"
  let followings := jsOr (← getField result "followings") (.arr [])
  let len ← getField followings "length"
  if jsIsZero len then
    return "❌ No followers data found"
  else
    let fs ← jsAsArray followings
    let blocks ← followerBlocks 0 fs
    let response := "🌟 Top Smart Followers (" ++ jsToString len ++ "):\n\n" ++ blocks
    return jsTrim response

/-- `formatEndpoint3Response` (top connections): the `try/catch` wrapper. -/
def formatEndpoint3Response (data : JValue) : String :=
  match formatEndpoint3Core data with
  | .ok s => s
  | .error _ => "Error formatting followers data"

/-- One numbered block of `formatEndpoint2Response`'s `forEach`. -/
def formatTweetBlock (idx : Nat) (tweet : JValue) : Except Unit String := do
  let body := jsOr (← getField tweet "body") (.str "N/A")
  let createTime := jsToString (jsOr (← getField tweet "tweet_create_time") (.str "N/A"))
  let viewCount := jsToString (jsOr (← getField tweet "view_count") (.str "N/A"))
  let likeCount := jsToString (jsOr (← getField tweet "like_count") (.str "N/A"))
  let replyCount := jsToString (jsOr (← getField tweet "reply_count") (.str "N/A"))
  let retweetCount := jsToString (jsOr (← getField tweet "retweet_count") (.str "N/A"))
  let category := jsToString (jsOr (← getField tweet "tweet_category") (.str "N/A"))
  let bodyLen ← getField body "length"
  let truncatedBody ← if jsGtNat bodyLen 200 then do
      let sub ← jsSubstringTo body 200
      pure (jsToString sub ++ "...")
    else
      pure (jsToString body)
  return toString (idx + 1) ++ ". 📝 " ++ truncatedBody ++
    "\n   📅 " ++ createTime ++
    "\n   👀 " ++ viewCount ++ " views" ++
    "\n   ❤️ " ++ likeCount ++ " likes" ++
    "\n   💬 " ++ replyCount ++ " replies" ++
    "\n   🔄 " ++ retweetCount ++ " retweets" ++
    "\n   🏷️ " ++ category ++ "\n\n"

/-- The `forEach` accumulation over the tweets list. -/
def tweetBlocks (idx : Nat) : List JValue → Except Unit String
  | [] => .ok ""
  | t :: rest => do
    let b ← formatTweetBlock idx t
    let r ← tweetBlocks (idx + 1) rest
    return b ++ r

/-- Body of the `try` block of `formatEndpoint2Response`. -/
def formatEndpoint2Core (data : JValue) : Except Unit String := do
  let tweets := jsOr (← getField data "result") (.arr [])
  let len ← getField tweets "length"
  if jsIsZero len then
    return "❌ No tweets data found"
  else
    let ts ← jsAsArray tweets
    let blocks ← tweetBlocks 0 ts
    let response := "🐦 Top Tweets (" ++ jsToString len ++ "):\n\n" ++ blocks
    return jsTrim response

/-- `formatEndpoint2Response` (top tweets): the `try/catch` wrapper. -/
def formatEndpoint2Response (data : JValue) : String :=
  match formatEndpoint2Core data with
  | .ok s => s
  | .error _ => "Error formatting tweets data"

/-! ## The Lookup Client (makeApiCall in xmtpService.ts) -/

/-- The static endpoint registry `API_ENDPOINTS.endpoint1`. -/
def API_ENDPOINTS_endpoint1 : String :=
  "https://api.cred.buzz/user/author-handle-details?author_handle=author_value"

/-- The static endpoint registry `API_ENDPOINTS.endpoint2`. -/
def API_ENDPOINTS_endpoint2 : String :=
  "https://api.cred.buzz/user/get-top-tweets?author_handle=author_value&interval=7day&sort_by=view_count_desc&limit=5"

/-- The static endpoint registry `API_ENDPOINTS.endpoint3`. -/
def API_ENDPOINTS_endpoint3 : String :=
  "https://api.cred.buzz/user/author-handle-followers?author_handle=author_value&sort_by=smart_followers_count_desc&limit=10&start=0"

/-- Characters `encodeURIComponent` leaves unescaped. -/
def isUnreservedURIChar (c : Char) : Bool :=
  (('A' ≤ c && c ≤ 'Z') || ('a' ≤ c && c ≤ 'z') || ('0' ≤ c && c ≤ '9') ||
    c == '-' || c == '_' || c == '.' || c == '!' || c == '~' || c == '*' ||
    c == '\'' || c == '(' || c == ')')

/-- Upper-case hex digit. -/
def hexDigit (n : Nat) : Char :=
  if n < 10 then Char.ofNat (48 + n) else Char.ofNat (55 + n)

/-- UTF-8 byte sequence of a character (as numbers below 256). -/
def utf8Bytes (c : Char) : List Nat :=
  let n := c.toNat
  if n < 128 then [n]
  else if n < 2048 then [192 + n / 64, 128 + n % 64]
  else if n < 65536 then [224 + n / 4096, 128 + (n / 64) % 64, 128 + n % 64]
  else [240 + n / 262144, 128 + (n / 4096) % 64, 128 + (n / 64) % 64, 128 + n % 64]

/-- `%XX` percent-encoding of one byte. -/
def percentByte (b : Nat) : String :=
  "%" ++ String.singleton (hexDigit (b / 16)) ++ String.singleton (hexDigit (b % 16))

/-- JavaScript `encodeURIComponent`. -/
def encodeURIComponent (s : String) : String :=
  s.data.foldl
    (fun acc c =>
      if isUnreservedURIChar c then acc ++ String.singleton c
      else acc ++ String.join ((utf8Bytes c).map percentByte))
    ""

/-- URL resolution of `makeApiCall`'s `switch (endpoint)`: the default branch
of the switch falls back to endpoint1's template. -/
def resolveUrl (endpoint authorHandle : String) : String :=
  if endpoint == "endpoint1" then
    replaceFirst API_ENDPOINTS_endpoint1 "author_value" (encodeURIComponent authorHandle)
  else if endpoint == "endpoint2" then
    replaceFirst API_ENDPOINTS_endpoint2 "author_value" (encodeURIComponent authorHandle)
  else if endpoint == "endpoint3" then
    replaceFirst API_ENDPOINTS_endpoint3 "author_value" (encodeURIComponent authorHandle)
  else
    replaceFirst API_ENDPOINTS_endpoint1 "author_value" (encodeURIComponent authorHandle)

/-- The request timeout `req.setTimeout(10000)` in milliseconds. -/
def requestTimeoutMs : Nat := 10000

/-- What the HTTPS transport does for one GET request: a complete response
body, an error event before any response, or no response within the timeout
(in which case the source destroys the in-flight request). -/
inductive TransportEvent : Type where
  | response (body : String) : TransportEvent
  | transportError (message : String) : TransportEvent
  | timeout : TransportEvent

/-- The object `makeApiCall` resolves its promise with.  The three literal
shapes in the source are `{endpoint_used, author_handle, data}`,
`{endpoint_used, author_handle, error, raw_data}` and
`{endpoint_used, author_handle, error}`; absent keys are `none`. -/
structure ApiResponse : Type where
  endpoint_used : String
  author_handle : String
  data : Option JValue
  error : Option String
  raw_data : Option String

/-- `makeApiCall(endpoint, authorHandle)`.  `parse` is `JSON.parse`
(`none` = SyntaxError) and `transport` gives the network's behaviour at the
resolved URL.  Every branch of the source calls `resolve` — never `reject` —
which the embedding reflects by being a total function into `ApiResponse`. -/
def makeApiCall (parse : String → Option JValue) (transport : String → TransportEvent)
    (endpoint authorHandle : String) : ApiResponse :=
  let url := resolveUrl endpoint authorHandle
  match transport url with
  | .response body =>
    match parse body with
    | some parsedData =>
      { endpoint_used := endpoint, author_handle := authorHandle,
        data := some parsedData, error := none, raw_data := none }
    | none =>
      { endpoint_used := endpoint, author_handle := authorHandle,
        data := none, error := some "Failed to parse response", raw_data := some body }
  | .transportError message =>
    { endpoint_used := endpoint, author_handle := authorHandle,
      data := none, error := some message, raw_data := none }
  | .timeout =>
    { endpoint_used := endpoint, author_handle := authorHandle,
      data := none, error := some "Request timeout", raw_data := none }

/-! ## Classifier Adapter and Parameter Extractor -/

/-- Behaviour of one `model.generateContent` call: the completion text it
returned, or the fact that it threw. -/
inductive AIOutcome : Type where
  | text (s : String) : AIOutcome
  | err : AIOutcome

/-- `decideApiEndpoint(userMessage, model)`: trims and lower-cases the
completion; returns it when it is one of the three endpoint ids, otherwise
(or when the call throws) returns `"endpoint1"`. -/
def decideApiEndpoint (userMessage : String) (ai : AIOutcome) : String :=
  match ai with
  | .err => "endpoint1"
  | .text s =>
    let decision := jsToLower (jsTrim s)
    if decision == "endpoint1" || decision == "endpoint2" || decision == "endpoint3" then
      decision
    else
      "endpoint1"

/-- A token matching the permissive handle pattern `^[a-zA-Z0-9_]{3,}$`. -/
def matchesHandlePattern (w : String) : Bool :=
  decide (3 ≤ w.data.length) && w.data.all (fun c => c.isAlphanum || c == '_')

/-- The `for (const word of words)` fallback scan of `extractAuthorHandle`:
each word in turn is first tested for an `@` prefix (returned sans `@`),
then against the handle pattern (returned whole). -/
def scanWords : List String → Option String
  | [] => none
  | w :: ws =>
    if jsStartsWithChar w '@' then some (jsDropOne w)
    else if matchesHandlePattern w then some w
    else scanWords ws

/-- `extractAuthorHandle(userMessage, model)`: on success the completion is
trimmed and its first `@` removed; when the call throws, the fallback scans
`userMessage.split(' ')` and falls back to the trimmed message. -/
def extractAuthorHandle (userMessage : String) (ai : AIOutcome) : String :=
  match ai with
  | .text s => replaceFirst (jsTrim s) "@" ""
  | .err =>
    match scanWords (jsSplitChar userMessage ' ') with
    | some h => h
    | none => jsTrim userMessage

/-! ## JSON.stringify(value, null, 2) and the orchestrator's dispatch -/

/-- One escaped character of a JSON string literal. -/
def jsonEscChar (c : Char) : String :=
  if c == '"' then "\\\""
  else if c == '\\' then "\\\\"
  else if c == '\n' then "\\n"
  else if c == '\r' then "\\r"
  else if c == '\t' then "\\t"
  else if c.toNat == 8 then "\\b"
  else if c.toNat == 12 then "\\f"
  else if c.toNat < 32 then
    "\\u00" ++ String.singleton (hexDigit (c.toNat / 16)) ++ String.singleton (hexDigit (c.toNat % 16))
  else String.singleton c

/-- A JSON string literal. -/
def jsonQuote (s : String) : String :=
  "\"" ++ String.join (s.data.map jsonEscChar) ++ "\""

/-- `n` spaces. -/
def indentStr (n : Nat) : String :=
  String.mk (List.replicate n ' ')

/-- Join pre-rendered entries of an object or array at nesting level `lvl`
the way `JSON.stringify` with a 2-space indent lays them out. -/
def jsonWrap (openC closeC : String) (lvl : Nat) : List String → String
  | [] => openC ++ closeC
  | e :: es =>
    openC ++ "\n" ++
      (es.foldl (fun acc x => acc ++ ",\n" ++ indentStr ((lvl + 1) * 2) ++ x)
        (indentStr ((lvl + 1) * 2) ++ e)) ++
      "\n" ++ indentStr (lvl * 2) ++ closeC

mutual

/-- `JSON.stringify(v, null, 2)` at nesting level `lvl`; `none` means the
value is `undefined` (dropped from objects, `null` inside arrays). -/
def jsonStringifyAux : Nat → JValue → Option String
  | _, .undefined => none
  | _, .null => some "null"
  | _, .bool b => some (if b then "true" else "false")
  | _, .num n => some (toString n)
  | _, .str s => some (jsonQuote s)
  | lvl, .arr xs => some (jsonWrap "[" "]" lvl (jsonStringifyItems lvl xs))
  | lvl, .obj fs => some (jsonWrap "\x7b" "\x7d" lvl (jsonStringifyFields lvl fs))

/-- Array items: `undefined` renders as `null`. -/
def jsonStringifyItems : Nat → List JValue → List String
  | _, [] => []
  | lvl, v :: rest =>
    ((jsonStringifyAux (lvl + 1) v).getD "null") :: jsonStringifyItems lvl rest

/-- Object entries: keys with `undefined` values are skipped. -/
def jsonStringifyFields : Nat → List (String × JValue) → List String
  | _, [] => []
  | lvl, (k, v) :: rest =>
    match jsonStringifyAux (lvl + 1) v with
    | none => jsonStringifyFields lvl rest
    | some s => (jsonQuote k ++ ": " ++ s) :: jsonStringifyFields lvl rest

end

/-- `JSON.stringify(v, null, 2)` (top level; an `undefined` argument never
occurs in the pipeline). -/
def jsonStringify2 (v : JValue) : String :=
  (jsonStringifyAux 0 v).getD "null"

/-- The `apiResponse` object as the JavaScript value the listener passes to
`JSON.stringify`, with the source's literal key order and absent keys
omitted. -/
def ApiResponse.toJValue (r : ApiResponse) : JValue :=
  .obj ([("endpoint_used", JValue.str r.endpoint_used),
         ("author_handle", JValue.str r.author_handle)] ++
    (match r.data with | some d => [("data", d)] | none => []) ++
    (match r.error with | some e => [("error", JValue.str e)] | none => []) ++
    (match r.raw_data with | some s => [("raw_data", JValue.str s)] | none => []))

/-- The response-selection block of `startMessageListener`
(`if (apiResponse.data && !apiResponse.error) { ... } else { ... }`):
dispatches to a dedicated formatter only when the `data` field is truthy and
the `error` field is falsy; otherwise stringifies the whole api response. -/
def routeResponse (selectedEndpoint : String) (apiResponse : ApiResponse) : String :=
  let dataTruthy := match apiResponse.data with
    | some d => jsTruthy d
    | none => false
  let errorTruthy := match apiResponse.error with
    | some e => jsTruthy (.str e)
    | none => false
  if dataTruthy && !errorTruthy then
    let data := (apiResponse.data).getD .undefined
    if selectedEndpoint == "endpoint1" then formatEndpoint1Response data
    else if selectedEndpoint == "endpoint2" then formatEndpoint2Response data
    else if selectedEndpoint == "endpoint3" then formatEndpoint3Response data
    else jsonStringify2 apiResponse.toJValue
  else jsonStringify2 apiResponse.toJValue

/-! ## The in-memory conversation store (messageStore.ts) -/

/-- `Message` of messageStore.ts; `timestamp` is the `Date` as milliseconds. -/
structure StoreMessage : Type where
  id : String
  sender : String
  content : String
  timestamp : Nat
  type : String
  conversationId : Option String
deriving DecidableEq

/-- `Conversation` of messageStore.ts. -/
structure Conversation : Type where
  id : String
  participantAddress : String
  messages : List StoreMessage
  lastActivity : Nat
deriving DecidableEq

/-- The `Map<string, Conversation>` in insertion order: a JavaScript `Map`
keeps keys in first-insertion order, `set` on a fresh key appends. -/
abbrev Store : Type := List (String × Conversation)

/-- `Map.get` / `Map.has` combined. -/
def storeLookup (s : Store) (cid : String) : Option Conversation :=
  (List.find? (fun p => p.1 == cid) s).map (fun p => p.2)

/-- `MessageStore.addMessage(message, conversationId, participantAddress)`;
`now` is the value of `new Date()` during the call.  A missing conversation
is first created empty, then the message is pushed and `lastActivity` set. -/
def addMessage (s : Store) (message : StoreMessage) (conversationId participantAddress : String)
    (now : Nat) : Store :=
  let s1 : Store :=
    if (storeLookup s conversationId).isSome then s
    else s ++ [(conversationId,
      { id := conversationId, participantAddress := participantAddress,
        messages := [], lastActivity := now })]
  s1.map (fun p =>
    if p.1 == conversationId then
      (p.1, { p.2 with messages := p.2.messages ++ [message], lastActivity := now })
    else p)

/-- `MessageStore.getConversations()`: the map's values sorted by
`b.lastActivity - a.lastActivity` (descending recency). -/
def getConversations (s : Store) : List Conversation :=
  (s.map (fun p => p.2)).mergeSort (fun a b => b.lastActivity ≤ a.lastActivity)

/-- Spec-side rendering of one profile field ("missing fields render as the
literal placeholder N/A", amended to also cover present falsy values). -/
def specFieldSlot (r : List (String × JValue)) (k : String) : String :=
  match lookupField r k with
  | some v => if jsTruthy v then jsToString v else "N/A"
  | none => "N/A"

/-- Spec-side rendering of the tags field ("a tag list (if an array) is
joined with ', ', otherwise used as-is or defaulted to N/A"). -/
def specTagsSlot (r : List (String × JValue)) : String :=
  match lookupField r "tags" with
  | some (.arr xs) => jsJoinElems ", " xs
  | some v => if jsTruthy v then jsToString v else "N/A"
  | none => "N/A"

/-! ## Claims -/

/-- C1: for every `JSON.parse` behaviour, transport behaviour, action id and
parameter, the Lookup Client is a total function (the promise always
resolves; no branch of the source calls `reject` or throws) and produces
exactly one outcome: a body that parses yields the parsed payload in `data`
with no `error`; a body that fails to parse yields the parse-failure `error`
with the raw body preserved in `raw_data`; a transport error yields its
message as `error`; a timeout (bounded by the 10000 ms = 10 s request
timeout, under which the source destroys the in-flight request) yields the
fixed timeout `error`. -/
theorem makeApiCall_resolves_one_outcome (parse : String → Option JValue)
    (transport : String → TransportEvent) (endpoint authorHandle : String) :
    requestTimeoutMs = 10000 ∧
    (∀ body, transport (resolveUrl endpoint authorHandle) = .response body →
      (∀ v, parse body = some v →
        makeApiCall parse transport endpoint authorHandle =
          { endpoint_used := endpoint, author_handle := authorHandle,
            data := some v, error := none, raw_data := none }) ∧
      (parse body = none →
        makeApiCall parse transport endpoint authorHandle =
          { endpoint_used := endpoint, author_handle := authorHandle,
            data := none, error := some "Failed to parse response", raw_data := some body })) ∧
    (∀ msg, transport (resolveUrl endpoint authorHandle) = .transportError msg →
      makeApiCall parse transport endpoint authorHandle =
        { endpoint_used := endpoint, author_handle := authorHandle,
          data := none, error := some msg, raw_data := none }) ∧
    (transport (resolveUrl endpoint authorHandle) = .timeout →
      makeApiCall parse transport endpoint authorHandle =
        { endpoint_used := endpoint, author_handle := authorHandle,
          data := none, error := some "Request timeout", raw_data := none }) := by
  refine ⟨rfl, ?_, ?_, ?_⟩
  · intro body hb
    constructor
    · intro v hv
      simp [makeApiCall, hb, hv]
    · intro hv
      simp [makeApiCall, hb, hv]
  · intro msg hm
    simp [makeApiCall, hm]
  · intro ht
    simp [makeApiCall, ht]

/-- C1 witness: a concrete transport returning the body `"1"` and a parse
that reads it as the number 1 produce the Success-shaped result. -/
theorem makeApiCall_resolves_one_outcome_witness :
    makeApiCall (fun _ => some (.num 1)) (fun _ => .response "1") "endpoint1" "bob" =
      { endpoint_used := "endpoint1", author_handle := "bob",
        data := some (.num 1), error := none, raw_data := none } :=
  ((makeApiCall_resolves_one_outcome (fun _ => some (.num 1)) (fun _ => .response "1")
    "endpoint1" "bob").2.1 "1" rfl).1 (.num 1) rfl

/-- C2: for every input text and every behaviour of the external completion
service, the Classifier Adapter returns a member of the closed set
`endpoint1`/`endpoint2`/`endpoint3`; the trimmed, lower-cased completion is
returned when it is a member, and any other completion — or a throwing
call — yields the default `endpoint1`. -/
theorem decideApiEndpoint_closed_set (userMessage : String) (ai : AIOutcome) :
    (decideApiEndpoint userMessage ai = "endpoint1" ∨
      decideApiEndpoint userMessage ai = "endpoint2" ∨
      decideApiEndpoint userMessage ai = "endpoint3") ∧
    (∀ s, ai = .text s →
      ((jsToLower (jsTrim s) = "endpoint1" ∨ jsToLower (jsTrim s) = "endpoint2" ∨
          jsToLower (jsTrim s) = "endpoint3") →
        decideApiEndpoint userMessage ai = jsToLower (jsTrim s)) ∧
      (¬(jsToLower (jsTrim s) = "endpoint1" ∨ jsToLower (jsTrim s) = "endpoint2" ∨
          jsToLower (jsTrim s) = "endpoint3") →
        decideApiEndpoint userMessage ai = "endpoint1")) ∧
    (ai = .err → decideApiEndpoint userMessage ai = "endpoint1") := by
  cases ai with
  | err =>
    refine ⟨Or.inl rfl, ?_, fun _ => rfl⟩
    intro s h
    cases h
  | text s =>
    refine ⟨?_, ?_, fun h => by cases h⟩
    · by_cases h1 : jsToLower (jsTrim s) = "endpoint1"
      · simp [decideApiEndpoint, h1]
      · by_cases h2 : jsToLower (jsTrim s) = "endpoint2"
        · simp [decideApiEndpoint, h1, h2]
        · by_cases h3 : jsToLower (jsTrim s) = "endpoint3"
          · simp [decideApiEndpoint, h1, h2, h3]
          · simp [decideApiEndpoint, h1, h2, h3]
    · intro t ht
      cases ht
      constructor
      · intro hmem
        rcases hmem with h | h | h <;> simp [decideApiEndpoint, h]
      · intro hmem
        push_neg at hmem
        simp [decideApiEndpoint, hmem.1, hmem.2.1, hmem.2.2]

/-- C2 witness: the completion `"  ENDPOINT2 "` normalizes to a member of the
set and is returned. -/
theorem decideApiEndpoint_closed_set_witness :
    decideApiEndpoint "show tweets" (.text "  ENDPOINT2 ") = "endpoint2" :=
  (((decideApiEndpoint_closed_set "show tweets" (.text "  ENDPOINT2 ")).2.1
      "  ENDPOINT2 " rfl).1 (Or.inr (Or.inl (by decide)))).trans (by decide)

/-- C5 counterexample: calling the Lookup Client with the invalid action id
`"garbage"` resolves the DEFAULT action's URL, yet the result's
`endpoint_used` field reports `"garbage"`, which is not a member of the
closed set — contradicting the claim that the reported `actionUsed` is the
default action id. -/
theorem makeApiCall_invalid_action_counterexample :
    resolveUrl "garbage" "bob" = resolveUrl "endpoint1" "bob" ∧
    (makeApiCall (fun _ => none) (fun _ => .timeout) "garbage" "bob").endpoint_used = "garbage" ∧
    ("garbage" ≠ "endpoint1" ∧ "garbage" ≠ "endpoint2" ∧ "garbage" ≠ "endpoint3") := by
  refine ⟨by decide, by decide, by decide, by decide, by decide⟩

/-- C5 amended: an action id outside the closed set resolves to the default
action's (endpoint1's) URL, and the result is exactly the default action's
result EXCEPT that the `endpoint_used` field echoes the original, possibly
invalid, action id unchanged; so `actionUsed` is a member of the closed set
only when the input action id already is. -/
theorem makeApiCall_invalid_action_amended (parse : String → Option JValue)
    (transport : String → TransportEvent) (endpoint authorHandle : String)
    (h1 : endpoint ≠ "endpoint1") (h2 : endpoint ≠ "endpoint2") (h3 : endpoint ≠ "endpoint3") :
    resolveUrl endpoint authorHandle = resolveUrl "endpoint1" authorHandle ∧
    makeApiCall parse transport endpoint authorHandle =
      { makeApiCall parse transport "endpoint1" authorHandle with endpoint_used := endpoint } := by
  have hurl : resolveUrl endpoint authorHandle = resolveUrl "endpoint1" authorHandle := by
    simp [resolveUrl, h1, h2, h3]
  refine ⟨hurl, ?_⟩
  cases ht : transport (resolveUrl "endpoint1" authorHandle) with
  | response body => cases hp : parse body <;> simp [makeApiCall, hurl, ht, hp]
  | transportError msg => simp [makeApiCall, hurl, ht]
  | timeout => simp [makeApiCall, hurl, ht]

/-- C5 amended witness: the invalid id `"garbage"` with a timing-out
transport produces the default action's timeout result with `endpoint_used`
echoed. -/
theorem makeApiCall_invalid_action_amended_witness :
    resolveUrl "garbage" "x" = resolveUrl "endpoint1" "x" ∧
    makeApiCall (fun _ => some .null) (fun _ => .timeout) "garbage" "x" =
      { makeApiCall (fun _ => some .null) (fun _ => .timeout) "endpoint1" "x" with
        endpoint_used := "garbage" } :=
  makeApiCall_invalid_action_amended (fun _ => some .null) (fun _ => .timeout) "garbage" "x"
    (by decide) (by decide) (by decide)

/-- C9: when the response body parses as a falsy JSON value (`null`,
`false`, `0` or `""`), the `data` field of the lookup result is falsy, so
the listener's dispatch condition `apiResponse.data && !apiResponse.error`
fails and the reply is the indented JSON dump of the whole lookup result,
not the dedicated formatter's output. -/
theorem routeResponse_falsy_payload_json (parse : String → Option JValue)
    (transport : String → TransportEvent) (endpoint authorHandle body : String) (v : JValue)
    (hb : transport (resolveUrl endpoint authorHandle) = .response body)
    (hv : parse body = some v) (hfalsy : jsTruthy v = false) :
    routeResponse endpoint (makeApiCall parse transport endpoint authorHandle) =
      jsonStringify2 (makeApiCall parse transport endpoint authorHandle).toJValue := by
  have hr : makeApiCall parse transport endpoint authorHandle =
      { endpoint_used := endpoint, author_handle := authorHandle,
        data := some v, error := none, raw_data := none } := by
    simp [makeApiCall, hb, hv]
  rw [hr]
  simp [routeResponse, hfalsy]

/-- C9 witness: a body parsing to JSON `null` is routed to the JSON dump. -/
theorem routeResponse_falsy_payload_json_witness :
    routeResponse "endpoint1" (makeApiCall (fun _ => some .null) (fun _ => .response "null")
        "endpoint1" "bob") =
      jsonStringify2 (makeApiCall (fun _ => some .null) (fun _ => .response "null")
        "endpoint1" "bob").toJValue :=
  routeResponse_falsy_payload_json (fun _ => some .null) (fun _ => .response "null")
    "endpoint1" "bob" "null" .null rfl rfl rfl

/-- Helper for C3: the fallback scan returns, for the first token accepted
by EITHER the `@`-prefix test or the handle pattern, that token with a
leading `@` stripped — the two tests are applied per token, in token
order. -/
theorem scanWords_eq_find (ws : List String) :
    scanWords ws =
      (ws.find? (fun w => jsStartsWithChar w '@' || matchesHandlePattern w)).map
        (fun w => if jsStartsWithChar w '@' then jsDropOne w else w) := by
  induction ws with
  | nil => rfl
  | cons w ws ih =>
    by_cases h1 : jsStartsWithChar w '@'
    · simp [scanWords, List.find?, h1]
    · by_cases h2 : matchesHandlePattern w
      · simp [scanWords, List.find?, h1, h2]
      · simp [scanWords, List.find?, h1, h2, ih]

/-- C3 counterexample: the claim says an `@`-prefixed token always wins, and
that tokens are whitespace-delimited.  Both fail: in `"hello @bob"` the
earlier token `"hello"` matches the handle pattern and is returned even
though the `@`-token `"@bob"` is present; and in `"a\t@bob"` the split is on
the space character only, so the tab-joined lump matches neither rule and
the whole trimmed message is returned instead of `"bob"`. -/
theorem extractAuthorHandle_fallback_counterexample :
    ((jsSplitChar "hello @bob" ' ').contains "@bob" = true ∧
      extractAuthorHandle "hello @bob" .err = "hello" ∧ "hello" ≠ "bob") ∧
    (extractAuthorHandle "a\t@bob" .err = "a\t@bob" ∧ "a\t@bob" ≠ "bob") := by
  refine ⟨⟨by decide, by decide, by decide⟩, by decide, by decide⟩

/-- C3 amended: when the external extraction call fails, the fallback splits
the message on the space character and scans the tokens in order; the first
token that either starts with `"@"` (returned with the `"@"` stripped) or
matches the permissive handle pattern (alphanumeric/underscore, length ≥ 3;
returned whole) is the result — the `"@"` rule takes priority over the
pattern rule only within a single token, not across tokens; if no token
matches either rule, the entire trimmed message text is returned. -/
theorem extractAuthorHandle_fallback_amended (userMessage : String) :
    (∀ w, (jsSplitChar userMessage ' ').find?
        (fun x => jsStartsWithChar x '@' || matchesHandlePattern x) = some w →
      extractAuthorHandle userMessage .err =
        (if jsStartsWithChar w '@' then jsDropOne w else w)) ∧
    ((jsSplitChar userMessage ' ').find?
        (fun x => jsStartsWithChar x '@' || matchesHandlePattern x) = none →
      extractAuthorHandle userMessage .err = jsTrim userMessage) := by
  constructor
  · intro w hw
    simp [extractAuthorHandle, scanWords_eq_find, hw]
  · intro hw
    simp [extractAuthorHandle, scanWords_eq_find, hw]

/-- C3 amended witness: in `"!! @naval ??"` the first matching token is the
`@`-token, which is returned stripped. -/
theorem extractAuthorHandle_fallback_amended_witness :
    extractAuthorHandle "!! @naval ??" .err = "naval" :=
  ((extractAuthorHandle_fallback_amended "!! @naval ??").1 "@naval" (by decide)).trans (by decide)

/-- C4 counterexample: with the nested `result` object entirely absent, the
top-tweets formatter does NOT return its fixed error string — `data.result
|| []` silently treats the missing field as an empty list and the fixed
no-data message is returned instead. -/
theorem formatEndpoint2_absent_result_counterexample :
    formatEndpoint2Response (.obj []) = "❌ No tweets data found" ∧
    formatEndpoint2Response (.obj []) ≠ "Error formatting tweets data" := by
  refine ⟨by decide, by decide⟩

/-- C4 amended: no formatter ever propagates an exception (each is a total
function into strings); when the nested `result` object is entirely absent,
the profile and followers formatters fail on the field access and return
their fixed category error strings, while the top-tweets formatter treats
the absent `result` as an empty list and returns its fixed no-data message
rather than its error string. -/
theorem formatters_absent_result_amended (fs : List (String × JValue))
    (h : lookupField fs "result" = none) :
    formatEndpoint1Response (.obj fs) = "Error formatting profile data" ∧
    formatEndpoint3Response (.obj fs) = "Error formatting followers data" ∧
    formatEndpoint2Response (.obj fs) = "❌ No tweets data found" := by
  have hres : getField (.obj fs) "result" = .ok .undefined := by
    simp [getField, h]
  refine ⟨?_, ?_, ?_⟩
  · unfold formatEndpoint1Response formatEndpoint1Core
    rw [hres]
    rfl
  · unfold formatEndpoint3Response formatEndpoint3Core
    rw [hres]
    rfl
  · unfold formatEndpoint2Response formatEndpoint2Core
    rw [hres]
    rfl

/-- C4 amended witness: a payload whose only field is not `result`. -/
theorem formatters_absent_result_amended_witness :
    formatEndpoint1Response (.obj [("x", .null)]) = "Error formatting profile data" ∧
    formatEndpoint3Response (.obj [("x", .null)]) = "Error formatting followers data" ∧
    formatEndpoint2Response (.obj [("x", .null)]) = "❌ No tweets data found" :=
  formatters_absent_result_amended [("x", .null)] rfl

/-- Reduction helper: successful bind in the exception monad. -/
theorem exceptBindOk {α β : Type} (a : α) (f : α → Except Unit β) :
    ((Except.ok a : Except Unit α) >>= f) = f a := rfl

/-- Reduction helper: failed bind in the exception monad. -/
theorem exceptBindErr {α β : Type} (e : Unit) (f : α → Except Unit β) :
    ((Except.error e : Except Unit α) >>= f) = Except.error e := rfl

/-- Reduction helper: map over a successful exception-monad value. -/
theorem exceptMapOk {α β : Type} (a : α) (f : α → β) :
    (f <$> (Except.ok a : Except Unit α)) = Except.ok (f a) := rfl

/-- Reduction helper: `pure` in the exception monad. -/
theorem exceptPureEq {α : Type} (a : α) :
    (pure a : Except Unit α) = Except.ok a := rfl

/-- How the formatters render one optional field: the `x || 'N/A'` idiom
stringifies the value when truthy and falls back to the literal `"N/A"`. -/
theorem jsToString_jsOr_na (v : JValue) :
    jsToString (jsOr v (.str "N/A")) = if jsTruthy v then jsToString v else "N/A" := by
  unfold jsOr
  by_cases h : jsTruthy v <;> simp [h, jsToString]

/-- Reduction helper: `undefined` is falsy. -/
theorem jsTruthy_undefined : jsTruthy .undefined = false := rfl

/-- Reduction helper: stringifying a string value is the identity. -/
theorem jsToString_str (s : String) : jsToString (.str s) = s := rfl

/-- Field slots reduce to the spec-side rendering. -/
theorem slot_if_eq (r : List (String × JValue)) (k : String) :
    (if jsTruthy ((lookupField r k).getD .undefined) then
        jsToString ((lookupField r k).getD .undefined)
      else "N/A") = specFieldSlot r k := by
  cases h : lookupField r k <;>
    simp [h, specFieldSlot, jsTruthy_undefined]

/-- C6 counterexample: a result with `author_handle` present and
`followers_count` PRESENT with value `0` (and the other fields missing).
The claim says every present field renders with its actual value, so the
followers line should show `0`; the code's `|| 'N/A'` treats the falsy `0`
as missing and renders `N/A`. -/
theorem formatEndpoint1_present_zero_counterexample :
    formatEndpoint1Response
        (.obj [("result", .obj [("author_handle", .str "bob"), ("followers_count", .num 0)])]) =
      "👤 Name: N/A\n🏷️ Handle: bob\n📝 Bio: N/A\n🖼️ Profile Image: N/A\n👥 Followers: N/A\n🏷️ Tags: N/A" ∧
    formatEndpoint1Response
        (.obj [("result", .obj [("author_handle", .str "bob"), ("followers_count", .num 0)])]) ≠
      "👤 Name: N/A\n🏷️ Handle: bob\n📝 Bio: N/A\n🖼️ Profile Image: N/A\n👥 Followers: 0\n🏷️ Tags: N/A" := by
  refine ⟨by decide, by decide⟩

/-- C6 amended: for every result object, the profile formatter renders each
of the six fields as its actual stringified value when the field is present
with a truthy value and as the literal `"N/A"` when it is missing OR present
with a falsy value; a tags value that is an array is joined with `", "`,
any other truthy tags value is used as-is, and otherwise the tags line shows
`"N/A"`. -/
theorem formatEndpoint1_renders_slots (r : List (String × JValue)) :
    formatEndpoint1Response (.obj [("result", .obj r)]) =
      "👤 Name: " ++ specFieldSlot r "name" ++
      "\n🏷️ Handle: " ++ specFieldSlot r "author_handle" ++
      "\n📝 Bio: " ++ specFieldSlot r "bio" ++
      "\n🖼️ Profile Image: " ++ specFieldSlot r "profile_image_url" ++
      "\n👥 Followers: " ++ specFieldSlot r "followers_count" ++
      "\n🏷️ Tags: " ++ specTagsSlot r := by
  have h0 : getField (JValue.obj [("result", JValue.obj r)]) "result" = .ok (.obj r) := rfl
  have hobj : ∀ k, getField (JValue.obj r) k = .ok ((lookupField r k).getD .undefined) :=
    fun _ => rfl
  simp only [formatEndpoint1Response, formatEndpoint1Core]
  rw [h0]
  simp only [exceptBindOk, hobj]
  cases ht : lookupField r "tags" with
  | none =>
    simp [jsIsArray, exceptBindOk, exceptPureEq, slot_if_eq, specTagsSlot, ht,
      jsToString_jsOr_na, jsTruthy_undefined]
  | some v =>
    cases v <;>
      simp [jsIsArray, jsJoin, exceptBindOk, exceptPureEq, exceptMapOk, slot_if_eq,
        specTagsSlot, ht, jsToString_jsOr_na, jsToString_str]

/-- C10: in each dedicated formatter, a field present with a falsy value
(`null`, `false`, `0`, `""`, and also `undefined`) renders exactly as if it
were missing — the `|| 'N/A'` idiom cannot distinguish the two — so e.g. a
`followers_count` of `0` or a `view_count` of `0` shows `N/A`, not `0`.
Stated per formatter over each field the formatter reads. -/
theorem formatters_falsy_field_as_missing (v : JValue) (hv : jsTruthy v = false) :
    (∀ k ∈ ["name", "author_handle", "bio", "profile_image_url", "followers_count", "tags"],
      formatEndpoint1Response (.obj [("result", .obj [(k, v)])]) =
        formatEndpoint1Response (.obj [("result", .obj [])])) ∧
    (∀ k ∈ ["body", "tweet_create_time", "view_count", "like_count", "reply_count",
        "retweet_count", "tweet_category"],
      formatEndpoint2Response (.obj [("result", .arr [.obj [(k, v)]])]) =
        formatEndpoint2Response (.obj [("result", .arr [.obj []])])) ∧
    (∀ k ∈ ["profile_name", "handle", "profile_image_url", "tags", "followers_count",
        "smart_followers"],
      formatEndpoint3Response (.obj [("result", .obj [("followings", .arr [.obj [(k, v)]])])]) =
        formatEndpoint3Response (.obj [("result", .obj [("followings", .arr [.obj []])])])) := by
  have hc : v = .null ∨ v = .undefined ∨ v = .bool false ∨ v = .num 0 ∨ v = .str "" := by
    cases v with
    | null => exact Or.inl rfl
    | undefined => exact Or.inr (Or.inl rfl)
    | bool b =>
      cases b with
      | false => exact Or.inr (Or.inr (Or.inl rfl))
      | true => simp [jsTruthy] at hv
    | num n =>
      have : n = 0 := by simpa [jsTruthy] using hv
      subst this
      exact Or.inr (Or.inr (Or.inr (Or.inl rfl)))
    | str s =>
      have : s = "" := by simpa [jsTruthy] using hv
      subst this
      exact Or.inr (Or.inr (Or.inr (Or.inr rfl)))
    | arr xs => simp [jsTruthy] at hv
    | obj fs => simp [jsTruthy] at hv
  rcases hc with h | h | h | h | h <;> subst h <;>
    refine ⟨?_, ?_, ?_⟩ <;> intro k hk <;> fin_cases hk <;> decide

/-- C10 witness: a profile with `followers_count` present and equal to `0`
renders identically to one with the field missing. -/
theorem formatters_falsy_field_as_missing_witness :
    formatEndpoint1Response (.obj [("result", .obj [("followers_count", .num 0)])]) =
      formatEndpoint1Response (.obj [("result", .obj [])]) :=
  (formatters_falsy_field_as_missing (.num 0) rfl).1 "followers_count" (by simp)

/-- C7 counterexample: a tweet whose `body` is PRESENT but the empty string
(length 0 ≤ 200, so per the claim it should render unchanged).  The code's
`tweet.body || 'N/A'` treats the falsy `""` as missing and renders the body
line as `N/A` instead of the empty body text. -/
theorem formatEndpoint2_empty_body_counterexample :
    formatEndpoint2Response (.obj [("result", .arr [.obj [("body", .str "")]])]) =
      "🐦 Top Tweets (1):\n\n1. 📝 N/A\n   📅 N/A\n   👀 N/A views\n   ❤️ N/A likes\n   💬 N/A replies\n   🔄 N/A retweets\n   🏷️ N/A" ∧
    formatEndpoint2Response (.obj [("result", .arr [.obj [("body", .str "")]])]) ≠
      "🐦 Top Tweets (1):\n\n1. 📝 \n   📅 N/A\n   👀 N/A views\n   ❤️ N/A likes\n   💬 N/A replies\n   🔄 N/A retweets\n   🏷️ N/A" := by
  refine ⟨by decide, by decide⟩

set_option maxHeartbeats 1600000 in
/-- C7 amended: an empty item array yields the fixed no-data message
verbatim; a non-empty body text of at most 200 characters is rendered
unchanged, and a longer one as exactly its first 200 characters followed by
`"..."` (so a 250-character body renders as 200 characters plus `"..."`);
an absent or EMPTY body renders as `"N/A"` instead. -/
theorem formatEndpoint2_truncation_amended :
    formatEndpoint2Response (.obj [("result", .arr [])]) = "❌ No tweets data found" ∧
    (∀ s : String, s ≠ "" →
      formatEndpoint2Response (.obj [("result", .arr [.obj [("body", .str s)]])]) =
        "🐦 Top Tweets (1):\n\n1. 📝 " ++
          (if 200 < s.length then jsTake s 200 ++ "..." else s) ++
          "\n   📅 N/A\n   👀 N/A views\n   ❤️ N/A likes\n   💬 N/A replies\n   🔄 N/A retweets\n   🏷️ N/A") := by
  refine ⟨by decide, ?_⟩
  intro s hs
  have hbody : jsOr (.str s) (.str "N/A") = .str s := by
    simp [jsOr, jsTruthy, hs]
  have hres : getField (JValue.obj [("result", JValue.arr [JValue.obj [("body", JValue.str s)]])])
      "result" = .ok (.arr [.obj [("body", .str s)]]) := rfl
  have hor : jsOr (.arr [JValue.obj [("body", JValue.str s)]]) (.arr []) =
      .arr [.obj [("body", .str s)]] := rfl
  have hlen : getField (JValue.arr [JValue.obj [("body", JValue.str s)]]) "length" =
      .ok (.num 1) := rfl
  have hbodyf : getField (JValue.obj [("body", JValue.str s)]) "body" = .ok (.str s) := rfl
  have hct : getField (JValue.obj [("body", JValue.str s)]) "tweet_create_time" =
      .ok .undefined := rfl
  have hvc : getField (JValue.obj [("body", JValue.str s)]) "view_count" = .ok .undefined := rfl
  have hlc : getField (JValue.obj [("body", JValue.str s)]) "like_count" = .ok .undefined := rfl
  have hrc : getField (JValue.obj [("body", JValue.str s)]) "reply_count" = .ok .undefined := rfl
  have hrt : getField (JValue.obj [("body", JValue.str s)]) "retweet_count" =
      .ok .undefined := rfl
  have htc : getField (JValue.obj [("body", JValue.str s)]) "tweet_category" =
      .ok .undefined := rfl
  have hsl : getField (JValue.str s) "length" = .ok (.num s.length) := rfl
  have hna : jsToString (jsOr .undefined (.str "N/A")) = "N/A" := rfl
  have h1s : jsToString (JValue.num 1) = "1" := rfl
  have hts : toString (0 + 1) = "1" := rfl
  simp only [formatEndpoint2Response, formatEndpoint2Core, tweetBlocks, formatTweetBlock,
    hres, hor, hlen, hbodyf, hct, hvc, hlc, hrc, hrt, htc, hbody, hsl, hna, h1s, hts,
    exceptBindOk, exceptPureEq, jsIsZero, jsAsArray, jsSubstringTo, jsToString_str]
  by_cases h200 : 200 < s.length
  · have hgt : jsGtNat (.num (s.length : Int)) 200 = true := by
      simp [jsGtNat]
      exact_mod_cast h200
    rw [hgt]
    simp only [if_pos h200, if_true, exceptBindOk, exceptPureEq, jsToString_str]
    apply String.ext
    simp [jsTrim, jsTake, List.dropWhile_append]
  · have hgt : jsGtNat (.num (s.length : Int)) 200 = false := by
      simp [jsGtNat]
      omega
    rw [hgt]
    simp only [if_neg h200, Bool.false_eq_true, if_false, exceptBindOk, exceptPureEq,
      jsToString_str]
    apply String.ext
    simp [jsTrim, jsTake, List.dropWhile_append]

set_option maxRecDepth 40000 in
/-- C7 amended witness: a 250-character body renders as exactly its first
200 characters followed by `"..."`. -/
theorem formatEndpoint2_truncation_amended_witness :
    formatEndpoint2Response (.obj [("result",
        .arr [.obj [("body", .str (String.mk (List.replicate 250 'a')))]])]) =
      "🐦 Top Tweets (1):\n\n1. 📝 " ++
        (String.mk (List.replicate 200 'a') ++ "...") ++
        "\n   📅 N/A\n   👀 N/A views\n   ❤️ N/A likes\n   💬 N/A replies\n   🔄 N/A retweets\n   🏷️ N/A" :=
  (formatEndpoint2_truncation_amended.2 (String.mk (List.replicate 250 'a'))
    (by decide)).trans (by decide)

/-- Helper for C8: looking a key up after the in-place update step of
`addMessage` applies the update exactly at that key. -/
theorem storeLookup_map_ite (l : Store) (cid k : String) (g : Conversation → Conversation) :
    storeLookup (l.map (fun p => if p.1 == cid then (p.1, g p.2) else p)) k =
      if k = cid then (storeLookup l k).map g else storeLookup l k := by
  induction l with
  | nil => by_cases h : k = cid <;> simp [storeLookup, h]
  | cons p l ih =>
    obtain ⟨a, c⟩ := p
    by_cases hak : a = k
    · subst hak
      by_cases hac : a = cid <;>
        simp [storeLookup, hac, List.find?_cons]
    · by_cases hac : a = cid
      · subst hac
        have hk : ¬(k = a) := fun h => hak h.symm
        simpa [storeLookup, List.find?_cons, hak, hk] using ih
      · simpa [storeLookup, List.find?_cons, hak, Ne.symm hak, hac] using ih

/-- Helper for C8: lookup distributes over the append used when a fresh
conversation is created. -/
theorem storeLookup_append (l₁ l₂ : Store) (k : String) :
    storeLookup (l₁ ++ l₂) k =
      ((storeLookup l₁ k).rec (storeLookup l₂ k) (fun c => some c) : Option Conversation) := by
  induction l₁ with
  | nil => simp [storeLookup]
  | cons p l ih =>
    obtain ⟨a, c⟩ := p
    by_cases hak : a = k
    · subst hak
      simp [storeLookup, List.find?_cons]
    · simpa [storeLookup, List.find?_cons, hak, Ne.symm hak] using ih



/-- Helper for C8: appending past a key that is absent on the left. -/
theorem storeLookup_append_none (l1 l2 : Store) (k : String)
    (h : storeLookup l1 k = none) : storeLookup (l1 ++ l2) k = storeLookup l2 k := by
  rw [storeLookup_append, h]

/-- Helper for C8: appending keeps a key found on the left. -/
theorem storeLookup_append_some (l1 l2 : Store) (k : String) (c : Conversation)
    (h : storeLookup l1 k = some c) : storeLookup (l1 ++ l2) k = some c := by
  rw [storeLookup_append, h]

/-- C8: for every state of the conversation store, `addMessage` creates a
conversation on the first message for an unseen conversation id (with the
message appended and `lastActivity` set to the call time); for a seen id it
only appends the message and refreshes `lastActivity`; every other
conversation is left untouched and no conversation is ever deleted; and
`getConversations` returns exactly the stored conversations (a permutation)
sorted in descending order of `lastActivity`. -/
theorem messageStore_addMessage_getConversations (s : Store) (m : StoreMessage)
    (cid pa : String) (now : Nat) :
    (storeLookup s cid = none →
      storeLookup (addMessage s m cid pa now) cid =
        some { id := cid, participantAddress := pa, messages := [m], lastActivity := now }) ∧
    (∀ c, storeLookup s cid = some c →
      storeLookup (addMessage s m cid pa now) cid =
        some { c with messages := c.messages ++ [m], lastActivity := now }) ∧
    (∀ k, k ≠ cid → storeLookup (addMessage s m cid pa now) k = storeLookup s k) ∧
    (∀ k, (storeLookup s k).isSome → (storeLookup (addMessage s m cid pa now) k).isSome) ∧
    (getConversations s).Pairwise (fun a b => b.lastActivity ≤ a.lastActivity) ∧
    (getConversations s).Perm (s.map (fun p => p.2)) := by
  have hfresh : storeLookup [(cid,
      { id := cid, participantAddress := pa, messages := [], lastActivity := now })] cid =
      some { id := cid, participantAddress := pa, messages := [], lastActivity := now } := by
    simp [storeLookup, List.find?_cons]
  refine ⟨?_, ?_, ?_, ?_, ?_, ?_⟩
  · intro h
    unfold addMessage
    rw [h]
    simp only [Option.isSome_none, Bool.false_eq_true, if_false]
    rw [storeLookup_map_ite _ cid cid
      (fun c => { c with messages := c.messages ++ [m], lastActivity := now })]
    rw [if_pos rfl, storeLookup_append_none s _ cid h, hfresh]
    rfl
  · intro c h
    unfold addMessage
    rw [h]
    simp only [Option.isSome_some, if_true]
    rw [storeLookup_map_ite s cid cid
      (fun c => { c with messages := c.messages ++ [m], lastActivity := now })]
    rw [if_pos rfl, h]
    rfl
  · intro k hk
    unfold addMessage
    by_cases hseen : (storeLookup s cid).isSome
    · rw [if_pos hseen]
      rw [storeLookup_map_ite s cid k
        (fun c => { c with messages := c.messages ++ [m], lastActivity := now })]
      rw [if_neg hk]
    · rw [if_neg hseen]
      rw [storeLookup_map_ite _ cid k
        (fun c => { c with messages := c.messages ++ [m], lastActivity := now })]
      rw [if_neg hk]
      have hcidk : (cid == k) = false := beq_eq_false_iff_ne.mpr (Ne.symm hk)
      have hnone : storeLookup [(cid,
          { id := cid, participantAddress := pa, messages := [], lastActivity := now })] k =
          none := by
        simp [storeLookup, List.find?_cons, hcidk]
      cases hs2 : storeLookup s k with
      | none => simp only [storeLookup_append_none s _ k hs2, hnone]
      | some c => simp only [storeLookup_append_some s _ k c hs2, hs2]
  · intro k hk
    obtain ⟨c, hc⟩ := Option.isSome_iff_exists.mp hk
    unfold addMessage
    by_cases hkc : k = cid
    · subst hkc
      rw [hc]
      simp only [Option.isSome_some, if_true]
      rw [storeLookup_map_ite s k k
        (fun c => { c with messages := c.messages ++ [m], lastActivity := now })]
      rw [if_pos rfl, hc]
      rfl
    · by_cases hseen : (storeLookup s cid).isSome
      · rw [if_pos hseen]
        rw [storeLookup_map_ite s cid k
          (fun c => { c with messages := c.messages ++ [m], lastActivity := now })]
        rw [if_neg hkc, hc]
        rfl
      · rw [if_neg hseen]
        rw [storeLookup_map_ite _ cid k
          (fun c => { c with messages := c.messages ++ [m], lastActivity := now })]
        rw [if_neg hkc, storeLookup_append_some s _ k c hc]
        rfl
  · unfold getConversations
    refine List.Pairwise.imp (fun h => ?_) (List.sorted_mergeSort
      (fun a b c hab hbc => ?_) (fun a b => ?_) (s.map (fun p => p.2)))
    · exact decide_eq_true_eq.mp h
    · simp only [decide_eq_true_eq] at hab hbc ⊢
      omega
    · simp only [Bool.or_eq_true, decide_eq_true_eq]
      omega
  · unfold getConversations
    exact List.mergeSort_perm (s.map (fun p => p.2)) _

/-- C8 witness: the first message for an unseen conversation id creates the
conversation with that message appended and `lastActivity` set. -/
theorem messageStore_addMessage_getConversations_witness :
    storeLookup ([] : Store) "c1" = none ∧
    storeLookup (addMessage []
        ⟨"msg1", "alice", "hi", 1, "incoming", some "c1"⟩ "c1" "0xabc" 5) "c1" =
      some ⟨"c1", "0xabc", [⟨"msg1", "alice", "hi", 1, "incoming", some "c1"⟩], 5⟩ :=
  ⟨rfl, (messageStore_addMessage_getConversations []
    ⟨"msg1", "alice", "hi", 1, "incoming", some "c1"⟩ "c1" "0xabc" 5).1 rfl⟩
